import Mathlib

/-!
# QuickWish local-hub backend: shallow embedding

A shallow embedding of the cart / checkout / order subsystem of
`backend/server.py` (multi-shop revision).  The Mongo collections become
lists of records; `find_one` becomes `findFirst`, `update_one` becomes an
update of the first matching element (`updateFirst`), `delete_one` removes
the first matching element (`eraseFirst`), `insert_one` appends.  Monetary
values are modelled as exact rationals, Python `round(x, 2)` as
round-half-even on hundredths, and timestamps as abstract naturals
supplied by the caller.  Generated ids (`uuid.uuid4().hex`) are parameters
of the operations.
-/

/-- A geographic location record `{lat, lng, address}`. -/
structure Location where
  lat : ℚ
  lng : ℚ
  address : String
deriving Repr, DecidableEq

/-- A catalog product document (fields used by the cart/order subsystem). -/
structure Product where
  product_id : String
  vendor_id : String
  name : String
  price : ℚ
  discounted_price : Option ℚ
  images : List String
deriving Repr, DecidableEq

/-- A hub-vendor document (fields used by the checkout path). -/
structure Vendor where
  vendor_id : String
  name : String
  image : Option String
  contact_phone : Option String
  location : Location
  has_own_delivery : Bool
deriving Repr, DecidableEq

/-- One line item of a cart: `{product_id, quantity}`. -/
structure CartLineItem where
  product_id : String
  quantity : ℤ
deriving Repr, DecidableEq

/-- A cart document, keyed by `(user_id, vendor_id)`. -/
structure Cart where
  user_id : String
  vendor_id : String
  items : List CartLineItem
deriving Repr, DecidableEq

/-- An order line item as snapshotted by `create_order`. -/
structure OrderItem where
  product_id : String
  name : String
  price : ℚ
  original_price : ℚ
  quantity : ℤ
  total : ℚ
  image : Option String
deriving Repr, DecidableEq

/-- A status-history entry.  The entry written at order creation carries a
`message` key; the entries pushed by `update_order_status` carry only
`status` and `timestamp`, which we model as `message = none`. -/
structure StatusEntry where
  status : String
  timestamp : Nat
  message : Option String
deriving Repr, DecidableEq

/-- A shop-order document as built by `create_order`. -/
structure Order where
  order_id : String
  user_id : String
  vendor_id : String
  vendor_name : String
  vendor_image : Option String
  vendor_phone : Option String
  vendor_address : Option String
  items : List OrderItem
  subtotal : ℚ
  tax_rate : ℚ
  tax_amount : ℚ
  delivery_fee : ℚ
  grand_total : ℚ
  delivery_address : Location
  delivery_type : String
  assigned_agent_id : Option String
  agent_name : Option String
  agent_phone : Option String
  agent_location : Option Location
  status : String
  status_history : List StatusEntry
  estimated_delivery : Nat
  payment_status : String
  notes : Option String
  created_at : Nat
deriving Repr, DecidableEq

/-- A wish document (fields written by the delivery-wish branch of
`create_order`; general wishes have `linked_order_id = none`). -/
structure Wish where
  wish_id : String
  user_id : String
  wish_type : String
  title : String
  description : String
  location : Location
  destination : Location
  radius_km : ℚ
  remuneration : ℚ
  is_immediate : Bool
  scheduled_time : Option Nat
  status : String
  linked_order_id : Option String
  accepted_by : Option String
  created_at : Nat
deriving Repr, DecidableEq

/-- Request body of `POST /orders`. -/
structure OrderCreate where
  vendor_id : String
  delivery_address : Location
  delivery_type : String
  notes : Option String
deriving Repr, DecidableEq

/-- Request body of `POST /cart/add` (`quantity` defaults to 1 in the source;
the default is irrelevant here since every call supplies it). -/
structure CartItem where
  product_id : String
  quantity : ℤ
deriving Repr, DecidableEq

/-- The database state: the five collections the subsystem touches. -/
structure DB where
  products : List Product
  hub_vendors : List Vendor
  carts : List Cart
  shop_orders : List Order
  wishes : List Wish
deriving Repr, DecidableEq

/-- Errors raised (as `HTTPException`s) by `create_order`. -/
inductive CheckoutError where
  | EmptyCart
  | VendorNotFound
  | DeliveryUnavailable
deriving Repr, DecidableEq

/-- Mongo `find_one`: the first element matching the filter. -/
def findFirst (p : α → Prop) [DecidablePred p] : List α → Option α
  | [] => none
  | x :: xs => if p x then some x else findFirst p xs

/-- Mongo `update_one`: replace the first element matching the filter by
its image under `f`. -/
def updateFirst (p : α → Prop) [DecidablePred p] (f : α → α) : List α → List α
  | [] => []
  | x :: xs => if p x then f x :: xs else x :: updateFirst p f xs

/-- Mongo `delete_one`: remove the first element matching the filter. -/
def eraseFirst (p : α → Prop) [DecidablePred p] : List α → List α
  | [] => []
  | x :: xs => if p x then xs else x :: eraseFirst p xs

/-- Round-half-even to an integer, the convention of Python `round`. -/
def roundHalfEven (x : ℚ) : ℤ :=
  let n := ⌊x⌋
  if x - n < 1 / 2 then n
  else if 1 / 2 < x - n then n + 1
  else if n % 2 = 0 then n else n + 1

/-- Python `round(x, 2)`: round-half-even on hundredths. -/
def round2 (x : ℚ) : ℚ := (roundHalfEven (x * 100) : ℚ) / 100

/-- The Mongo key filter used for a user's per-vendor cart. -/
def cartKey (uid vid : String) (c : Cart) : Prop :=
  c.user_id = uid ∧ c.vendor_id = vid

instance (uid vid : String) (c : Cart) : Decidable (cartKey uid vid c) :=
  inferInstanceAs (Decidable (_ ∧ _))

/-- `find_one` on the carts collection. -/
def findCart (db : DB) (uid vid : String) : Option Cart :=
  findFirst (cartKey uid vid) db.carts

/-- `find_one` on the products collection. -/
def findProduct (db : DB) (pid : String) : Option Product :=
  findFirst (fun p => p.product_id = pid) db.products

/-- `find_one` on the hub_vendors collection. -/
def findVendor (db : DB) (vid : String) : Option Vendor :=
  findFirst (fun v => v.vendor_id = vid) db.hub_vendors

/-- `find_one` on the shop_orders collection. -/
def getOrder (db : DB) (oid : String) : Option Order :=
  findFirst (fun o => o.order_id = oid) db.shop_orders

/-- Unit-price resolution of `create_order`:
`price = product.get("discounted_price") or product["price"]`.
Python `or` falls back to the list price when `discounted_price` is
missing (`None`) or falsy (`0` / `0.0`). -/
def sourcePrice (p : Product) : ℚ :=
  match p.discounted_price with
  | some d => if d = 0 then p.price else d
  | none => p.price

/-- The order line item `create_order` builds from a cart item and its
resolved product. -/
def mkOrderItem (p : Product) (ci : CartLineItem) : OrderItem :=
  { product_id := p.product_id
    name := p.name
    price := sourcePrice p
    original_price := p.price
    quantity := ci.quantity
    total := sourcePrice p * (ci.quantity : ℚ)
    image := p.images.head? }

/-- `POST /cart/add` (`add_to_cart` in the source).  Returns the updated
database together with the response's `cart_count`. -/
def add_to_cart (db : DB) (uid : String) (item : CartItem) :
    Except String (DB × ℤ) :=
  match findProduct db item.product_id with
  | none => .error "Product not found"
  | some product =>
    let vid := product.vendor_id
    let carts' :=
      match findCart db uid vid with
      | none =>
        db.carts ++
          [{ user_id := uid
             vendor_id := vid
             items := [{ product_id := item.product_id, quantity := item.quantity }] }]
      | some cart =>
        if (findFirst (fun i => i.product_id = item.product_id) cart.items).isSome then
          updateFirst
            (fun c => cartKey uid vid c ∧
              (findFirst (fun i => i.product_id = item.product_id) c.items).isSome)
            (fun c =>
              { c with items :=
                  (updateFirst (fun i => i.product_id = item.product_id)
                    (fun i => { i with quantity := i.quantity + item.quantity })
                    c.items) })
            db.carts
        else
          updateFirst (cartKey uid vid)
            (fun c => { c with items :=
              c.items ++ [{ product_id := item.product_id, quantity := item.quantity }] })
            db.carts
    let db' := { db with carts := carts' }
    let total_items :=
      match findCart db' uid vid with
      | some c => (c.items.map (fun i => i.quantity)).sum
      | none => 0
    .ok (db', total_items)

/-- `POST /orders` (`create_order` in the source).  `now` is the current
time, `oid` and `wid` the generated order / wish ids. -/
def create_order (db : DB) (uid : String) (od : OrderCreate)
    (now : Nat) (oid wid : String) : Except CheckoutError (DB × Order) :=
  match findCart db uid od.vendor_id with
  | none => .error .EmptyCart
  | some cart =>
    if cart.items = [] then .error .EmptyCart
    else
      match findVendor db od.vendor_id with
      | none => .error .VendorNotFound
      | some vendor =>
        let items := cart.items.filterMap (fun ci =>
          (findProduct db ci.product_id).map (fun p => mkOrderItem p ci))
        let total_amount := (items.map (fun it => it.total)).sum
        let tax_rate : ℚ := 5 / 100
        let tax_amount := round2 (total_amount * tax_rate)
        if od.delivery_type = "shop_delivery" ∧ vendor.has_own_delivery = false then
          .error .DeliveryUnavailable
        else
          let delivery_fee : ℚ := if od.delivery_type = "agent_delivery" then 30 else 0
          let grand_total := total_amount + tax_amount + delivery_fee
          let order : Order :=
            { order_id := oid
              user_id := uid
              vendor_id := od.vendor_id
              vendor_name := vendor.name
              vendor_image := vendor.image
              vendor_phone := vendor.contact_phone
              vendor_address := some vendor.location.address
              items := items
              subtotal := total_amount
              tax_rate := tax_rate
              tax_amount := tax_amount
              delivery_fee := delivery_fee
              grand_total := grand_total
              delivery_address := od.delivery_address
              delivery_type := od.delivery_type
              assigned_agent_id := none
              agent_name := none
              agent_phone := none
              agent_location := none
              status := "confirmed"
              status_history :=
                [{ status := "confirmed", timestamp := now, message := some "Order confirmed" }]
              estimated_delivery := now + 45
              payment_status := "paid"
              notes := od.notes
              created_at := now }
          let db1 := { db with shop_orders := db.shop_orders ++ [order] }
          let db2 :=
            if od.delivery_type = "agent_delivery" then
              { db1 with wishes := db1.wishes ++
                [{ wish_id := wid
                   user_id := uid
                   wish_type := "delivery"
                   title := "Delivery from " ++ vendor.name
                   description := "Pick up order #" ++ oid.takeRight 8 ++ " from " ++
                     vendor.name ++ " and deliver to customer"
                   location := vendor.location
                   destination := od.delivery_address
                   radius_km := 5
                   remuneration := delivery_fee
                   is_immediate := true
                   scheduled_time := none
                   status := "pending"
                   linked_order_id := some oid
                   accepted_by := none
                   created_at := now }] }
            else db1
          let db3 := { db2 with carts := eraseFirst (cartKey uid od.vendor_id) db2.carts }
          .ok (db3, order)

/-- The database state after a checkout call: an `HTTPException` aborts
before any write, so an error leaves the state unchanged. -/
def runCheckout (db : DB) (uid : String) (od : OrderCreate)
    (now : Nat) (oid wid : String) : DB :=
  match create_order db uid od now oid wid with
  | .ok (db', _) => db'
  | .error _ => db

/-- The canonical status set of `update_order_status`. -/
def valid_statuses : List String :=
  ["confirmed", "preparing", "ready", "picked_up", "on_the_way", "nearby",
   "delivered", "cancelled"]

/-- `PUT /orders/{id}/status` (`update_order_status` in the source).
After the validity check the source sends the update document

`{"$set": {"status": ..., "agent_location": ...} if agent_location else {"$set": {"status": ...}}}`

in which the conditional expression is the *value* of the outer `"$set"`
key.  When no agent location is supplied (the default call) the document
is therefore `{"$set": {"$set": {"status": ...}}}`; the store rejects the
dollar-prefixed field path before matching anything, the call raises a
server error, nothing is written, and the history push below it is never
reached.  With an agent location the document is well-formed: status and
location are set, and a second `update_one` pushes a
`{status, timestamp}` history entry (the `update_data` dict built
earlier, whose entry carries a message, is never passed to the store). -/
def update_order_status (db : DB) (oid s : String)
    (agent_location : Option Location) (now : Nat) :
    Except String (DB × String) :=
  if s ∈ valid_statuses then
    match agent_location with
    | none => .error "Malformed update document"
    | some l =>
      let orders1 := updateFirst (fun o => o.order_id = oid)
        (fun o => { o with status := s, agent_location := some l })
        db.shop_orders
      let orders2 := updateFirst (fun o => o.order_id = oid)
        (fun o => { o with status_history :=
          o.status_history ++ [{ status := s, timestamp := now, message := none }] })
        orders1
      .ok ({ db with shop_orders := orders2 }, "Order status updated to " ++ s)
  else .error "Invalid status"

/-- The database state after a status-update call. -/
def runUpdate (db : DB) (oid s : String) (loc : Option Location) (now : Nat) : DB :=
  match update_order_status db oid s loc now with
  | .ok (db', _) => db'
  | .error _ => db

/-- Apply a sequence of status updates `(status, agent location, time)` to
one order.  Each update supplies an agent location, since an update
without one fails against the store (see `update_order_status`) and
writes nothing. -/
def applyUpdates (db : DB) (oid : String) : List (String × Location × Nat) → DB
  | [] => db
  | u :: us => applyUpdates (runUpdate db oid u.1 (some u.2.1) u.2.2) oid us

/-- The value a fully resolving cart line contributes to the subtotal. -/
def lineValue (db : DB) (ci : CartLineItem) : ℚ :=
  match findProduct db ci.product_id with
  | some p => sourcePrice p * (ci.quantity : ℚ)
  | none => 0

/-! ## Concrete fixtures

A small catalog, vendor and cart used to exercise the operations on the
spec's concrete scenario and on the corner cases. -/

/-- The vendor's pickup location. -/
def locV : Location := { lat := 0, lng := 0, address := "12 Market Road" }

/-- The customer's delivery address. -/
def locD : Location := { lat := 1, lng := 1, address := "7 Lake View" }

/-- A vendor without own delivery. -/
def vendor0 : Vendor :=
  { vendor_id := "v1", name := "Fresh Mart", image := none, contact_phone := none,
    location := locV, has_own_delivery := false }

/-- A vendor with own delivery. -/
def vendor1 : Vendor :=
  { vendor_id := "v2", name := "Spice House", image := none, contact_phone := none,
    location := locV, has_own_delivery := true }

/-- Product A of the spec's concrete scenario: price 100, discounted 80. -/
def prodA : Product :=
  { product_id := "pA", vendor_id := "v1", name := "Rice", price := 100,
    discounted_price := some 80, images := [] }

/-- Product B of the spec's concrete scenario: price 50, no discount. -/
def prodB : Product :=
  { product_id := "pB", vendor_id := "v1", name := "Dal", price := 50,
    discounted_price := none, images := [] }

/-- A product of vendor `v2`. -/
def prodC : Product :=
  { product_id := "pC", vendor_id := "v2", name := "Masala", price := 40,
    discounted_price := none, images := [] }

/-- A product whose `discounted_price` is present and equal to 0. -/
def prodZ : Product :=
  { product_id := "pZ", vendor_id := "v1", name := "Sample", price := 50,
    discounted_price := some 0, images := [] }

/-- The concrete-scenario cart: product A with quantity 2, product B with
quantity 1. -/
def cart0 : Cart := { user_id := "u1", vendor_id := "v1", items := [⟨"pA", 2⟩, ⟨"pB", 1⟩] }

/-- A cart of user `u1` at vendor `v2`. -/
def cart1 : Cart := { user_id := "u1", vendor_id := "v2", items := [⟨"pC", 3⟩] }

/-- The concrete-scenario database. -/
def db0 : DB :=
  { products := [prodA, prodB, prodC], hub_vendors := [vendor0, vendor1],
    carts := [cart0, cart1], shop_orders := [], wishes := [] }

/-- Checkout request of the concrete scenario: agent delivery at vendor `v1`. -/
def od0 : OrderCreate :=
  { vendor_id := "v1", delivery_address := locD, delivery_type := "agent_delivery",
    notes := none }

/-- Checkout request: shop delivery at vendor `v1` (which has no own delivery). -/
def odShop0 : OrderCreate :=
  { vendor_id := "v1", delivery_address := locD, delivery_type := "shop_delivery",
    notes := none }

/-- Checkout request: shop delivery at vendor `v2` (which has own delivery). -/
def odShop1 : OrderCreate :=
  { vendor_id := "v2", delivery_address := locD, delivery_type := "shop_delivery",
    notes := none }

/-- A placeholder order used as the default of option extraction. -/
def dummyOrder : Order :=
  { order_id := "", user_id := "", vendor_id := "", vendor_name := "",
    vendor_image := none, vendor_phone := none, vendor_address := none,
    items := [], subtotal := 0, tax_rate := 0, tax_amount := 0, delivery_fee := 0,
    grand_total := 0, delivery_address := locV, delivery_type := "",
    assigned_agent_id := none, agent_name := none, agent_phone := none,
    agent_location := none, status := "", status_history := [],
    estimated_delivery := 0, payment_status := "", notes := none, created_at := 0 }

/-- The order produced by the concrete-scenario checkout. -/
def order0 : Order :=
  ((create_order db0 "u1" od0 0 "order_x" "wish_y").toOption.map Prod.snd).getD dummyOrder

/-- The database after the concrete-scenario checkout. -/
def db0x : DB :=
  ((create_order db0 "u1" od0 0 "order_x" "wish_y").toOption.map Prod.fst).getD db0

/-- The order produced by a shop-delivery checkout at vendor `v2`. -/
def order1 : Order :=
  ((create_order db0 "u1" odShop1 0 "order_s" "wish_s").toOption.map Prod.snd).getD dummyOrder

/-- The database after the shop-delivery checkout at vendor `v2`. -/
def db1x : DB :=
  ((create_order db0 "u1" odShop1 0 "order_s" "wish_s").toOption.map Prod.fst).getD db0

/-- A cart whose single line item references a product id absent from the
catalog. -/
def cartGhost : Cart := { user_id := "u1", vendor_id := "v1", items := [⟨"ghost", 1⟩] }

/-- A database whose only cart has no resolvable line item. -/
def dbGhost : DB :=
  { products := [prodA, prodB, prodC], hub_vendors := [vendor0, vendor1],
    carts := [cartGhost], shop_orders := [], wishes := [] }

/-- The order produced by checking out the ghost cart (no resolvable
line item). -/
def orderG : Order :=
  ((create_order dbGhost "u1" od0 0 "order_g" "wish_g").toOption.map Prod.snd).getD dummyOrder

/-- The database after checking out the ghost cart. -/
def dbGx : DB :=
  ((create_order dbGhost "u1" od0 0 "order_g" "wish_g").toOption.map Prod.fst).getD dbGhost

/-- A cart holding one unit of the zero-discount product. -/
def cartZ : Cart := { user_id := "u1", vendor_id := "v1", items := [⟨"pZ", 1⟩] }

/-- A database whose cart holds the product with `discounted_price = 0`. -/
def dbZ : DB :=
  { products := [prodZ], hub_vendors := [vendor0, vendor1], carts := [cartZ],
    shop_orders := [], wishes := [] }

/-- The order produced by checking out the zero-discount cart. -/
def orderZ : Order :=
  ((create_order dbZ "u1" od0 0 "order_z" "wish_z").toOption.map Prod.snd).getD dummyOrder

/-- The post-checkout database after one status update to `preparing`
(carrying an agent location, which the store requires to accept the
update at all). -/
def dbU1 : DB := runUpdate db0x "order_x" "preparing" (some locD) 7

/-- The post-checkout database after updates to `preparing` then
`delivered`, each with an agent location. -/
def dbU2 : DB :=
  applyUpdates db0x "order_x" [("preparing", locD, 7), ("delivered", locD, 9)]

/-- The post-checkout database after one status update to `delivered`
(with an agent location). -/
def dbDel : DB := runUpdate db0x "order_x" "delivered" (some locV) 5

/-- The order of `dbDel`, sitting in the terminal state `delivered`. -/
def orderDel : Order := (getOrder dbDel "order_x").getD dummyOrder

/-- `dbDel` after a further status update back to `preparing` (with an
agent location). -/
def dbDel2 : DB := runUpdate dbDel "order_x" "preparing" (some locV) 6

/-- The database after user `u2` adds two units of product A. -/
def dbAdd1 : DB := ((add_to_cart db0 "u2" ⟨"pA", 2⟩).toOption.map Prod.fst).getD db0

/-- The database after user `u2` adds three more units of product A. -/
def dbAdd2 : DB := ((add_to_cart dbAdd1 "u2" ⟨"pA", 3⟩).toOption.map Prod.fst).getD db0

/-- The unit-price rule as the spec words it ("discounted_price if present
and non-null, else list price"), for comparison with the source's
`sourcePrice`.  The two differ exactly when `discounted_price` is present
and equal to 0. -/
def specPrice (p : Product) : ℚ :=
  match p.discounted_price with
  | some d => d
  | none => p.price

/-! ## Helper lemmas about the store primitives -/

theorem findFirst_eq_none_iff (p : α → Prop) [DecidablePred p] (l : List α) :
    findFirst p l = none ↔ ∀ x ∈ l, ¬ p x := by
  induction l with
  | nil => simp [findFirst]
  | cons a l ih =>
    by_cases h : p a <;> simp [findFirst, h, ih]

theorem findFirst_some (p : α → Prop) [DecidablePred p] {l : List α} {x : α}
    (h : findFirst p l = some x) : x ∈ l ∧ p x := by
  induction l with
  | nil => simp [findFirst] at h
  | cons a l ih =>
    by_cases ha : p a
    · simp [findFirst, ha] at h
      subst h; exact ⟨List.mem_cons_self a l, ha⟩
    · simp [findFirst, ha] at h
      rcases ih h with ⟨h1, h2⟩
      exact ⟨List.mem_cons_of_mem a h1, h2⟩

theorem findFirst_append_of_none (p : α → Prop) [DecidablePred p]
    {l₁ : List α} (l₂ : List α) (h : findFirst p l₁ = none) :
    findFirst p (l₁ ++ l₂) = findFirst p l₂ := by
  induction l₁ with
  | nil => simp
  | cons a l ih =>
    by_cases ha : p a
    · simp [findFirst, ha] at h
    · simp [findFirst, ha] at h ⊢
      exact ih h

theorem updateFirst_of_none (p : α → Prop) [DecidablePred p] (f : α → α)
    {l : List α} (h : findFirst p l = none) : updateFirst p f l = l := by
  induction l with
  | nil => rfl
  | cons a l ih =>
    by_cases ha : p a
    · simp [findFirst, ha] at h
    · simp [findFirst, ha] at h
      simp [updateFirst, ha, ih h]

theorem findFirst_updateFirst (p : α → Prop) [DecidablePred p] (f : α → α)
    {l : List α} {x : α} (h : findFirst p l = some x) (hf : p (f x)) :
    findFirst p (updateFirst p f l) = some (f x) := by
  induction l with
  | nil => simp [findFirst] at h
  | cons a l ih =>
    by_cases ha : p a
    · simp [findFirst, ha] at h
      subst h
      simp [updateFirst, findFirst, ha, hf]
    · simp [findFirst, updateFirst, ha] at h ⊢
      exact ih h

theorem updateFirst_append_of_none (p : α → Prop) [DecidablePred p] (f : α → α)
    {l₁ : List α} (l₂ : List α) (h : findFirst p l₁ = none) :
    updateFirst p f (l₁ ++ l₂) = l₁ ++ updateFirst p f l₂ := by
  induction l₁ with
  | nil => simp
  | cons a l ih =>
    by_cases ha : p a
    · simp [findFirst, ha] at h
    · simp [findFirst, ha] at h
      simp [updateFirst, ha, ih h]

theorem mem_eraseFirst_of_not (p : α → Prop) [DecidablePred p] {l : List α} {x : α}
    (hx : x ∈ l) (hpx : ¬ p x) : x ∈ eraseFirst p l := by
  induction l with
  | nil => simp at hx
  | cons a l ih =>
    by_cases ha : p a
    · simp [eraseFirst, ha]
      rcases List.mem_cons.mp hx with h | h
      · exact absurd (h ▸ ha) hpx
      · exact h
    · simp [eraseFirst, ha]
      rcases List.mem_cons.mp hx with h | h
      · exact Or.inl h
      · exact Or.inr (ih h)

theorem mem_of_mem_eraseFirst (p : α → Prop) [DecidablePred p] {l : List α} {x : α}
    (hx : x ∈ eraseFirst p l) : x ∈ l := by
  induction l with
  | nil => simp [eraseFirst] at hx
  | cons a l ih =>
    by_cases ha : p a
    · simp [eraseFirst, ha] at hx
      exact List.mem_cons_of_mem a hx
    · simp [eraseFirst, ha] at hx
      rcases hx with h | h
      · exact h ▸ List.mem_cons_self a l
      · exact List.mem_cons_of_mem a (ih h)

theorem findFirst_eraseFirst_of_count (p : α → Prop) [DecidablePred p] {l : List α}
    (h : l.countP (fun x => decide (p x)) ≤ 1) :
    findFirst p (eraseFirst p l) = none := by
  induction l with
  | nil => rfl
  | cons a l ih =>
    by_cases ha : p a
    · have hl : l.countP (fun x => decide (p x)) = 0 := by
        rw [List.countP_cons] at h
        simp [ha] at h
        exact List.countP_eq_zero.mpr (fun x hx => by simpa using h x hx)
      simp [eraseFirst, ha]
      rw [findFirst_eq_none_iff]
      intro x hx hpx
      have hz := List.countP_eq_zero.mp hl x hx
      exact hz (by simpa using hpx)
    · simp [List.countP_cons, ha] at h
      simp [eraseFirst, findFirst, ha]
      exact ih h

/-- When every line item resolves, the accumulated item totals add up to
the sum of effective line values of the cart. -/
theorem sum_totals_of_resolved (db : DB) (l : List CartLineItem)
    (h : ∀ ci ∈ l, (findProduct db ci.product_id).isSome) :
    ((l.filterMap (fun ci =>
        (findProduct db ci.product_id).map (fun p => mkOrderItem p ci))).map
      (fun it => it.total)).sum = (l.map (lineValue db)).sum := by
  induction l with
  | nil => rfl
  | cons a l ih =>
    have ha := h a (List.mem_cons_self a l)
    rcases Option.isSome_iff_exists.mp ha with ⟨p, hp⟩
    rw [List.filterMap_cons, hp]
    simp only [Option.map_some']
    rw [List.map_cons, List.sum_cons, List.map_cons, List.sum_cons,
      ih (fun ci hci => h ci (List.mem_cons_of_mem a hci))]
    congr 1
    simp [mkOrderItem, lineValue, hp]

/-- **C1.** For a cart whose line items all resolve, a successful checkout
produces an order whose subtotal is the sum of effective price times
quantity over the cart, whose tax is `round(subtotal * 0.05, 2)`, and
whose grand total is `subtotal + tax + delivery_fee`. -/
theorem C1_checkout_totals (db : DB) (uid : String) (od : OrderCreate) (now : Nat)
    (oid wid : String) (cart : Cart) (db' : DB) (o : Order)
    (hcart : findCart db uid od.vendor_id = some cart)
    (hres : ∀ ci ∈ cart.items, (findProduct db ci.product_id).isSome)
    (hok : create_order db uid od now oid wid = .ok (db', o)) :
    o.subtotal = (cart.items.map (lineValue db)).sum ∧
    o.tax_amount = round2 (o.subtotal * (5 / 100)) ∧
    o.grand_total = o.subtotal + o.tax_amount + o.delivery_fee := by
  unfold create_order at hok
  split at hok
  · cases hok
  · rename_i cart' heq
    rw [hcart] at heq
    injection heq with hceq
    subst hceq
    split at hok
    · cases hok
    · split at hok
      · cases hok
      · rename_i vendor hv
        split at hok
        · cases hok
        · simp only [Except.ok.injEq, Prod.mk.injEq] at hok
          obtain ⟨-, ho⟩ := hok
          subst ho
          exact ⟨sum_totals_of_resolved db cart.items hres, rfl, rfl⟩

/-- Witness for C1: the spec's concrete scenario.  Cart `[{price 100,
discounted 80, qty 2}, {price 50, no discount, qty 1}]` with agent
delivery yields subtotal 210, tax 10.5, delivery fee 30, grand total
250.5. -/
theorem C1_checkout_totals_witness :
    findCart db0 "u1" od0.vendor_id = some cart0 ∧
    create_order db0 "u1" od0 0 "order_x" "wish_y" = .ok (db0x, order0) ∧
    order0.subtotal = (cart0.items.map (lineValue db0)).sum ∧
    order0.tax_amount = round2 (order0.subtotal * (5 / 100)) ∧
    order0.grand_total = order0.subtotal + order0.tax_amount + order0.delivery_fee ∧
    order0.subtotal = 210 ∧ order0.tax_amount = 21 / 2 ∧
    order0.delivery_fee = 30 ∧ order0.grand_total = 501 / 2 := by
  have hcart : findCart db0 "u1" od0.vendor_id = some cart0 := rfl
  have hok : create_order db0 "u1" od0 0 "order_x" "wish_y" = .ok (db0x, order0) := rfl
  have hres : ∀ ci ∈ cart0.items, (findProduct db0 ci.product_id).isSome := by decide
  obtain ⟨h1, h2, h3⟩ :=
    C1_checkout_totals db0 "u1" od0 0 "order_x" "wish_y" cart0 db0x order0 hcart hres hok
  refine ⟨hcart, hok, h1, h2, h3, ?_, ?_, rfl, ?_⟩
  · show (80 : ℚ) * ((2 : ℤ) : ℚ) + ((50 : ℚ) * ((1 : ℤ) : ℚ) + 0) = 210
    norm_num
  · show round2 ((((80 : ℚ) * ((2 : ℤ) : ℚ) + ((50 : ℚ) * ((1 : ℤ) : ℚ) + 0))) * (5 / 100)) =
      21 / 2
    norm_num [round2, roundHalfEven]
  · show ((80 : ℚ) * ((2 : ℤ) : ℚ) + ((50 : ℚ) * ((1 : ℤ) : ℚ) + 0)) +
      round2 ((((80 : ℚ) * ((2 : ℤ) : ℚ) + ((50 : ℚ) * ((1 : ℤ) : ℚ) + 0))) * (5 / 100)) +
      30 = 501 / 2
    norm_num [round2, roundHalfEven]

/-- **C2.** A successful agent-delivery checkout appends exactly one wish,
whose remuneration equals the delivery fee (30), whose `linked_order_id`
is the new order's id, whose `location` is the vendor's location and whose
`destination` is the order's delivery address; a successful shop-delivery
checkout appends no wish. -/
theorem C2_linked_wish (db : DB) (uid : String) (od : OrderCreate) (now : Nat)
    (oid wid : String) (vendor : Vendor) (db' : DB) (o : Order)
    (hv : findVendor db od.vendor_id = some vendor)
    (hok : create_order db uid od now oid wid = .ok (db', o)) :
    (od.delivery_type = "agent_delivery" →
      ∃ w : Wish, db'.wishes = db.wishes ++ [w] ∧
        w.remuneration = o.delivery_fee ∧ o.delivery_fee = 30 ∧
        w.linked_order_id = some o.order_id ∧
        w.location = vendor.location ∧ w.destination = od.delivery_address) ∧
    (od.delivery_type = "shop_delivery" → db'.wishes = db.wishes) := by
  unfold create_order at hok
  split at hok
  · cases hok
  · rename_i cart' heq
    split at hok
    · cases hok
    · split at hok
      · cases hok
      · rename_i vendor' hv'
        rw [hv] at hv'
        injection hv' with hveq
        subst hveq
        split at hok
        · cases hok
        · simp only [Except.ok.injEq, Prod.mk.injEq] at hok
          obtain ⟨hdb, ho⟩ := hok
          subst hdb
          subst ho
          constructor
          · intro hag
            simp [hag]
          · intro hsh
            simp [hsh]

/-- Witness for C2: the concrete agent-delivery checkout creates exactly
the one linked wish (remuneration 30, linked to `order_x`, located at the
vendor, destined for the delivery address), and the concrete shop-delivery
checkout creates none. -/
theorem C2_linked_wish_witness :
    findVendor db0 od0.vendor_id = some vendor0 ∧
    db0x.wishes.map (fun w => (w.remuneration, w.linked_order_id, w.location, w.destination)) =
      [(30, some "order_x", locV, locD)] ∧
    findVendor db0 odShop1.vendor_id = some vendor1 ∧
    db1x.wishes = [] := by
  refine ⟨rfl, ?_, rfl, ?_⟩
  · obtain ⟨h1, -⟩ :=
      C2_linked_wish db0 "u1" od0 0 "order_x" "wish_y" vendor0 db0x order0 rfl rfl
    obtain ⟨w, hw, hrem, hfee, hlink, hloc, hdest⟩ := h1 rfl
    rw [hw]
    simp only [db0, List.nil_append, List.map_cons, List.map_nil]
    rw [hrem, hfee, hlink, hloc, hdest]
    rfl
  · obtain ⟨-, h2⟩ :=
      C2_linked_wish db0 "u1" odShop1 0 "order_s" "wish_s" vendor1 db1x order1 rfl rfl
    rw [h2 rfl]
    rfl

/-- Counterexample to C3 as stated: a cart whose only line item references
a product id absent from the catalog does **not** fail with `EmptyCart`;
checkout succeeds, an order with an empty item list and subtotal 0 is
created (and, under agent delivery, a wish as well), and the cart is
consumed. -/
theorem C3_counterexample :
    cartGhost.items ≠ [] ∧
    cartGhost.items.all (fun ci => (findProduct dbGhost ci.product_id).isNone) = true ∧
    create_order dbGhost "u1" od0 0 "order_g" "wish_g" = .ok (dbGx, orderG) ∧
    orderG.items = [] ∧ orderG.subtotal = 0 ∧ dbGx.shop_orders = [orderG] := by
  refine ⟨by decide, by decide, rfl, rfl, ?_, rfl⟩
  show ((List.filterMap (fun ci =>
    (findProduct dbGhost ci.product_id).map (fun p => mkOrderItem p ci)) cartGhost.items).map
      (fun it => it.total)).sum = 0
  rfl

/-- **C3 (amended).** A checkout whose cart document is absent, or whose
cart has an empty items list, fails with `EmptyCart` and leaves the
database unchanged (no order, no wish, carts intact).  A cart whose items
exist but resolve to no product is *not* covered: it checks out
successfully with an empty priced item list (see the counterexample). -/
theorem C3_empty_cart (db : DB) (uid : String) (od : OrderCreate) (now : Nat)
    (oid wid : String)
    (h : findCart db uid od.vendor_id = none ∨
         ∃ cart, findCart db uid od.vendor_id = some cart ∧ cart.items = []) :
    create_order db uid od now oid wid = .error .EmptyCart ∧
    runCheckout db uid od now oid wid = db := by
  have herr : create_order db uid od now oid wid = .error .EmptyCart := by
    unfold create_order
    rcases h with h | ⟨cart, hc, he⟩
    · rw [h]
    · rw [hc]
      dsimp only
      rw [if_pos he]
  refine ⟨herr, ?_⟩
  unfold runCheckout
  rw [herr]

/-- Witness for C3 (amended): user `u2` has no cart at vendor `v1`, so the
checkout call fails with `EmptyCart` and the database is unchanged. -/
theorem C3_empty_cart_witness :
    findCart db0 "u2" od0.vendor_id = none ∧
    create_order db0 "u2" od0 0 "order_e" "wish_e" = .error .EmptyCart ∧
    runCheckout db0 "u2" od0 0 "order_e" "wish_e" = db0 := by
  have h : findCart db0 "u2" od0.vendor_id = none := by decide
  obtain ⟨h1, h2⟩ := C3_empty_cart db0 "u2" od0 0 "order_e" "wish_e" (Or.inl h)
  exact ⟨h, h1, h2⟩

/-- **C4.** A checkout with `shop_delivery` against a vendor without own
delivery fails with `DeliveryUnavailable` (given the cart precondition has
already passed) and leaves the database unchanged. -/
theorem C4_delivery_unavailable (db : DB) (uid : String) (od : OrderCreate)
    (now : Nat) (oid wid : String) (cart : Cart) (vendor : Vendor)
    (hcart : findCart db uid od.vendor_id = some cart) (hne : cart.items ≠ [])
    (hv : findVendor db od.vendor_id = some vendor)
    (hshop : od.delivery_type = "shop_delivery")
    (hod : vendor.has_own_delivery = false) :
    create_order db uid od now oid wid = .error .DeliveryUnavailable ∧
    runCheckout db uid od now oid wid = db := by
  have herr : create_order db uid od now oid wid = .error .DeliveryUnavailable := by
    unfold create_order
    split
    · rename_i heq; rw [hcart] at heq; cases heq
    · rename_i cart' heq
      rw [hcart] at heq; injection heq with hc; subst hc
      rw [if_neg hne]
      split
      · rename_i heq2; rw [hv] at heq2; cases heq2
      · rename_i vendor' hveq
        rw [hv] at hveq; injection hveq with hv2; subst hv2
        rw [if_pos ⟨hshop, hod⟩]
  refine ⟨herr, ?_⟩
  unfold runCheckout
  rw [herr]

/-- Witness for C4: the concrete cart at vendor `v1` (no own delivery)
with a `shop_delivery` checkout request fails with `DeliveryUnavailable`
and the database is unchanged. -/
theorem C4_delivery_unavailable_witness :
    findCart db0 "u1" odShop0.vendor_id = some cart0 ∧
    vendor0.has_own_delivery = false ∧
    create_order db0 "u1" odShop0 0 "order_d" "wish_d" = .error .DeliveryUnavailable ∧
    runCheckout db0 "u1" odShop0 0 "order_d" "wish_d" = db0 := by
  obtain ⟨h1, h2⟩ := C4_delivery_unavailable db0 "u1" odShop0 0 "order_d" "wish_d"
    cart0 vendor0 rfl (by decide) rfl rfl rfl
  exact ⟨rfl, rfl, h1, h2⟩

/-- Counterexample to C5 as stated: for a product whose `discounted_price`
is present and equal to 0, the order line's unit price is the **list**
price (50), not the discounted price (0): the source computes
`product.get("discounted_price") or product["price"]`, and Python's `or`
discards a 0 discount. -/
theorem C5_counterexample :
    prodZ.discounted_price = some 0 ∧ specPrice prodZ = 0 ∧
    (create_order dbZ "u1" od0 0 "order_z" "wish_z").isOk = true ∧
    orderZ.items.map (fun it => it.price) = [50] ∧ (50 : ℚ) ≠ 0 := by
  refine ⟨rfl, rfl, rfl, rfl, by norm_num⟩

/-- **C5 (amended).** Every line item of a successful checkout snapshots
the resolved product with unit price `discounted_price` when it is
present and nonzero, and the list price otherwise (in particular when the
discount is 0); the line total is unit price times cart quantity. -/
theorem C5_unit_price (db : DB) (uid : String) (od : OrderCreate) (now : Nat)
    (oid wid : String) (cart : Cart) (db' : DB) (o : Order)
    (hcart : findCart db uid od.vendor_id = some cart)
    (hok : create_order db uid od now oid wid = .ok (db', o)) :
    ∀ it ∈ o.items, ∃ ci ∈ cart.items, ∃ p,
      findProduct db ci.product_id = some p ∧
      it.price = sourcePrice p ∧ it.quantity = ci.quantity ∧
      it.total = it.price * (it.quantity : ℚ) ∧
      (∀ d, p.discounted_price = some d → d ≠ 0 → it.price = d) ∧
      (p.discounted_price = none → it.price = p.price) ∧
      (p.discounted_price = some 0 → it.price = p.price) := by
  unfold create_order at hok
  split at hok
  · cases hok
  · rename_i cart' heq
    rw [hcart] at heq
    injection heq with hceq
    subst hceq
    split at hok
    · cases hok
    · split at hok
      · cases hok
      · rename_i vendor hv
        split at hok
        · cases hok
        · simp only [Except.ok.injEq, Prod.mk.injEq] at hok
          obtain ⟨-, ho⟩ := hok
          subst ho
          intro it hit
          simp only [List.mem_filterMap] at hit
          obtain ⟨ci, hci, hmap⟩ := hit
          rw [Option.map_eq_some'] at hmap
          obtain ⟨p, hp, hmk⟩ := hmap
          subst hmk
          refine ⟨ci, hci, p, hp, rfl, rfl, rfl, ?_, ?_, ?_⟩
          · intro d hd hdz
            simp [mkOrderItem, sourcePrice, hd, hdz]
          · intro hd
            simp [mkOrderItem, sourcePrice, hd]
          · intro hd
            simp [mkOrderItem, sourcePrice, hd]

/-- Witness for C5 (amended): in the concrete scenario the snapshot prices
are the effective prices 80 (discounted) and 50 (list), and each line
total is price times quantity. -/
theorem C5_unit_price_witness :
    findCart db0 "u1" od0.vendor_id = some cart0 ∧
    order0.items.map (fun it => it.price) = [sourcePrice prodA, sourcePrice prodB] ∧
    sourcePrice prodA = 80 ∧ sourcePrice prodB = 50 ∧
    order0.items.map (fun it => it.total) =
      [sourcePrice prodA * ((2 : ℤ) : ℚ), sourcePrice prodB * ((1 : ℤ) : ℚ)] := by
  have h := C5_unit_price db0 "u1" od0 0 "order_x" "wish_y" cart0 db0x order0 rfl rfl
  exact ⟨rfl, rfl, rfl, rfl, rfl⟩

/-- A status update without an agent location fails against the store
(its update document is malformed) whatever the order id, so the state is
unchanged. -/
theorem runUpdate_none (db : DB) (oid s : String) (now : Nat) :
    runUpdate db oid s none now = db := by
  unfold runUpdate update_order_status
  by_cases hs : s ∈ valid_statuses
  · rw [if_pos hs]
  · rw [if_neg hs]

/-- One successful status update (necessarily carrying an agent location)
on a present order: the first matching order gets the new status, the
agent location, and one appended `{status, timestamp}` history entry (no
message). -/
theorem getOrder_runUpdate (db : DB) (oid s : String) (l : Location)
    (now : Nat) (o : Order) (hs : s ∈ valid_statuses) (ho : getOrder db oid = some o) :
    getOrder (runUpdate db oid s (some l) now) oid =
      some { o with
              status := s
              agent_location := some l
              status_history := o.status_history ++ [⟨s, now, none⟩] } := by
  have hp : o.order_id = oid := (findFirst_some _ ho).2
  unfold getOrder at ho
  unfold runUpdate update_order_status
  rw [if_pos hs]
  dsimp only
  unfold getOrder
  have h1 := findFirst_updateFirst (fun o : Order => o.order_id = oid)
    (fun o => { o with status := s, agent_location := some l }) ho hp
  have h2 := findFirst_updateFirst (fun o : Order => o.order_id = oid)
    (fun o => { o with status_history := o.status_history ++ [⟨s, now, none⟩] }) h1 hp
  exact h2

/-- A sequence of successful status updates (each with an agent location)
on a present order: statuses chain (the last one wins), the last agent
location wins, and the history entries accumulate in order. -/
theorem getOrder_applyUpdates (us : List (String × Location × Nat)) (db : DB)
    (oid : String) (o : Order)
    (hv : ∀ u ∈ us, u.1 ∈ valid_statuses) (ho : getOrder db oid = some o) :
    getOrder (applyUpdates db oid us) oid =
      some { o with
              status := us.foldl (fun _ u => u.1) o.status
              agent_location := us.foldl (fun _ u => some u.2.1) o.agent_location
              status_history := o.status_history ++
                us.map (fun u => (⟨u.1, u.2.2, none⟩ : StatusEntry)) } := by
  induction us generalizing db o with
  | nil => simpa using ho
  | cons u us ih =>
    have h1 := getOrder_runUpdate db oid u.1 u.2.1 u.2.2 o
      (hv u (List.mem_cons_self u us)) ho
    have h2 := ih (runUpdate db oid u.1 (some u.2.1) u.2.2)
      { o with
          status := u.1
          agent_location := some u.2.1
          status_history := o.status_history ++ [⟨u.1, u.2.2, none⟩] }
      (fun v hvv => hv v (List.mem_cons_of_mem u hvv)) h1
    simp only [applyUpdates]
    rw [h2]
    simp [List.append_assoc]

/-- Folding "keep the newest status" picks the last update's status. -/
theorem foldl_last_status {β : Type} (us : List (String × β)) (s0 : String) :
    us.foldl (fun _ u => u.1) s0 = ((us.getLast?).map Prod.fst).getD s0 := by
  induction us generalizing s0 with
  | nil => rfl
  | cons u t ih =>
    rw [List.foldl_cons, ih]
    cases t with
    | nil => rfl
    | cons v t =>
      rw [List.getLast?_cons_cons]
      obtain ⟨w, hw⟩ := Option.isSome_iff_exists.mp
        (List.getLast?_isSome.mpr (List.cons_ne_nil v t))
      rw [hw]
      rfl

/-- `getLast?` of an append with a nonempty right part. -/
theorem getLast?_append_right (l₁ l₂ : List α) (h : l₂ ≠ []) :
    (l₁ ++ l₂).getLast? = l₂.getLast? := by
  induction l₁ with
  | nil => rfl
  | cons a l ih =>
    rw [List.cons_append]
    cases hl : l ++ l₂ with
    | nil => exact absurd (List.append_eq_nil.mp hl).2 h
    | cons b t => rw [List.getLast?_cons_cons, ← hl, ih]

/-- Counterexample to C6 as stated: after one status update, the appended
history entry carries only `status` and `timestamp` — its `message` key is
missing (the `update_data` dict that would have carried a message is never
written in the source) — so not every entry has the shape
`{status, timestamp, message}`. -/
theorem C6_counterexample :
    (getOrder dbU1 "order_x").map
        (fun o => o.status_history.map (fun e => (e.status, e.timestamp, e.message))) =
      some [("confirmed", 0, some "Order confirmed"), ("preparing", 7, none)] ∧
    (getOrder dbU1 "order_x").map
        (fun o => o.status_history.map (fun e => e.message.isSome)) =
      some [true, false] := by
  exact ⟨rfl, rfl⟩

/-- **C6 (amended).** After N successful status updates an order created
with its single creation entry has exactly N+1 history entries: the
creation entry is unmodified in front, the N appended entries are exactly
the updates in order (each carrying status and timestamp but no message),
and the last entry's status equals the order's current status. -/
theorem C6_status_history (db : DB) (oid : String) (o : Order) (e0 : StatusEntry)
    (us : List (String × Location × Nat))
    (hv : ∀ u ∈ us, u.1 ∈ valid_statuses)
    (ho : getOrder db oid = some o)
    (hinit : o.status_history = [e0]) (hstat : e0.status = o.status) :
    ∃ o', getOrder (applyUpdates db oid us) oid = some o' ∧
      o'.status_history.length = us.length + 1 ∧
      o'.status_history.take 1 = o.status_history ∧
      o'.status_history.drop 1 = us.map (fun u => (⟨u.1, u.2.2, none⟩ : StatusEntry)) ∧
      o'.status_history.getLast?.map (fun e => e.status) = some o'.status := by
  refine ⟨_, getOrder_applyUpdates us db oid o hv ho, ?_, ?_, ?_, ?_⟩
  · simp [hinit, Nat.add_comm]
  · simp [hinit]
  · simp [hinit]
  · cases us with
    | nil => simp [hinit, hstat]
    | cons u t =>
      have hne : ((u :: t).map (fun u => (⟨u.1, u.2.2, none⟩ : StatusEntry))) ≠ [] := by simp
      show ((o.status_history ++ _).getLast?.map _) = _
      rw [getLast?_append_right _ _ hne, List.getLast?_map]
      obtain ⟨w, hw⟩ := Option.isSome_iff_exists.mp
        (List.getLast?_isSome.mpr (List.cons_ne_nil u t))
      rw [hw]
      show some w.1 = some ((u :: t).foldl (fun _ u => u.1) o.status)
      rw [foldl_last_status, hw]
      rfl

/-- Witness for C6 (amended): two updates (`preparing` at time 7,
`delivered` at time 9) on the concrete order leave exactly three history
entries — the untouched creation entry followed by the two message-less
update entries — and the last entry's status matches the order's status. -/
theorem C6_status_history_witness :
    getOrder db0x "order_x" = some order0 ∧
    order0.status_history = [⟨"confirmed", 0, some "Order confirmed"⟩] ∧
    (getOrder dbU2 "order_x").map
        (fun o => (o.status, o.status_history.map (fun e => (e.status, e.timestamp, e.message)))) =
      some ("delivered",
        [("confirmed", 0, some "Order confirmed"), ("preparing", 7, none),
         ("delivered", 9, none)]) := by
  have h := C6_status_history db0x "order_x" order0 ⟨"confirmed", 0, some "Order confirmed"⟩
    [("preparing", locD, 7), ("delivered", locD, 9)] (by decide) rfl rfl rfl
  exact ⟨rfl, rfl, rfl⟩

/-- Counterexample to C7 as stated: `update_order_status` performs no
transition check, so an order in the terminal state `delivered` is moved
back to `preparing` by a further update. -/
theorem C7_counterexample :
    (getOrder dbDel "order_x").map (fun o => o.status) = some "delivered" ∧
    (getOrder dbDel2 "order_x").map (fun o => o.status) = some "preparing" := by
  exact ⟨rfl, rfl⟩

/-- **C7 (amended).** A status update that supplies an agent location sets
any valid status on any present order regardless of its current state:
`delivered` and `cancelled` are not absorbing.  A status update without an
agent location fails against the store (malformed update document) and
changes nothing. -/
theorem C7_terminal_not_absorbing (db : DB) (oid s : String) (l : Location)
    (now : Nat) (o : Order)
    (ho : getOrder db oid = some o)
    (_hterm : o.status = "delivered" ∨ o.status = "cancelled")
    (hs : s ∈ valid_statuses) :
    (∃ o', getOrder (runUpdate db oid s (some l) now) oid = some o' ∧ o'.status = s) ∧
    runUpdate db oid s none now = db := by
  exact ⟨⟨_, getOrder_runUpdate db oid s l now o hs ho, rfl⟩, runUpdate_none db oid s now⟩

/-- Witness for C7 (amended): the concrete `delivered` order is moved to
`preparing` by a located update, while the location-less update leaves
the database untouched. -/
theorem C7_terminal_not_absorbing_witness :
    getOrder dbDel "order_x" = some orderDel ∧
    orderDel.status = "delivered" ∧
    (getOrder dbDel2 "order_x").map (fun o => o.status) = some "preparing" ∧
    runUpdate dbDel "order_x" "preparing" none 6 = dbDel := by
  have h := C7_terminal_not_absorbing dbDel "order_x" "preparing" locV 6 orderDel
    rfl (Or.inl rfl) (by decide)
  exact ⟨rfl, rfl, rfl, h.2⟩

/-- **C8.** A successful checkout deletes the checked-out `(user, vendor)`
cart (assuming the store holds at most one cart per key, which Mongo's
upsert pattern maintains), and every other cart survives unchanged. -/
theorem C8_cart_deleted (db : DB) (uid : String) (od : OrderCreate) (now : Nat)
    (oid wid : String) (db' : DB) (o : Order)
    (hok : create_order db uid od now oid wid = .ok (db', o))
    (huniq : db.carts.countP (fun c => decide (cartKey uid od.vendor_id c)) ≤ 1) :
    findCart db' uid od.vendor_id = none ∧
    (∀ c ∈ db.carts, ¬ cartKey uid od.vendor_id c → c ∈ db'.carts) ∧
    (∀ c ∈ db'.carts, c ∈ db.carts) := by
  have hcarts : db'.carts = eraseFirst (cartKey uid od.vendor_id) db.carts := by
    unfold create_order at hok
    split at hok
    · cases hok
    · split at hok
      · cases hok
      · split at hok
        · cases hok
        · split at hok
          · cases hok
          · simp only [Except.ok.injEq, Prod.mk.injEq] at hok
            obtain ⟨hdb, -⟩ := hok
            subst hdb
            by_cases hag : od.delivery_type = "agent_delivery"
            · rw [if_pos hag]
            · rw [if_neg hag]
  refine ⟨?_, ?_, ?_⟩
  · unfold findCart
    rw [hcarts]
    exact findFirst_eraseFirst_of_count _ huniq
  · intro c hc hnk
    rw [hcarts]
    exact mem_eraseFirst_of_not _ hc hnk
  · intro c hc
    rw [hcarts] at hc
    exact mem_of_mem_eraseFirst _ hc

/-- Witness for C8: after the concrete checkout at vendor `v1`, user
`u1`'s `v1` cart is gone while the `v2` cart survives: the cart store is
exactly `[cart1]`. -/
theorem C8_cart_deleted_witness :
    findCart db0x "u1" od0.vendor_id = none ∧
    db0x.carts = [cart1] ∧ cart1 ∈ db0.carts := by
  obtain ⟨h1, -, -⟩ := C8_cart_deleted db0 "u1" od0 0 "order_x" "wish_y" db0x order0
    rfl (by decide)
  exact ⟨h1, rfl, by decide⟩

/-- **C9.** Starting from no cart at the product's vendor, adding the same
product twice (quantities `a` then `b`) leaves one cart holding exactly
one line item for that product with quantity `a + b`, and each call
reports the accumulated count. -/
theorem C9_add_same_product_twice (db : DB) (uid pid : String) (a b : ℤ) (p : Product)
    (hp : findProduct db pid = some p)
    (hnc : findCart db uid p.vendor_id = none) :
    ∃ db1 db2 : DB,
      add_to_cart db uid ⟨pid, a⟩ = .ok (db1, a) ∧
      add_to_cart db1 uid ⟨pid, b⟩ = .ok (db2, a + b) ∧
      findCart db2 uid p.vendor_id = some ⟨uid, p.vendor_id, [⟨pid, a + b⟩]⟩ := by
  set nc : Cart := ⟨uid, p.vendor_id, [⟨pid, a⟩]⟩ with hnc_def
  set nc2 : Cart := ⟨uid, p.vendor_id, [⟨pid, a + b⟩]⟩ with hnc2_def
  have hfc1 : findCart { db with carts := db.carts ++ [nc] } uid p.vendor_id = some nc := by
    unfold findCart at hnc ⊢
    rw [show ({ db with carts := db.carts ++ [nc] } : DB).carts = db.carts ++ [nc] from rfl,
      findFirst_append_of_none _ _ hnc]
    simp [findFirst, cartKey, hnc_def]
  have hfc3 : findCart { db with carts := db.carts ++ [nc2] } uid p.vendor_id = some nc2 := by
    unfold findCart at hnc ⊢
    rw [show ({ db with carts := db.carts ++ [nc2] } : DB).carts = db.carts ++ [nc2] from rfl,
      findFirst_append_of_none _ _ hnc]
    simp [findFirst, cartKey, hnc2_def]
  have h1 : add_to_cart db uid ⟨pid, a⟩ = .ok ({ db with carts := db.carts ++ [nc] }, a) := by
    unfold add_to_cart
    rw [hp]
    dsimp only
    rw [hnc]
    dsimp only
    rw [hfc1]
    simp [hnc_def]
  have hbig : findFirst (fun c => cartKey uid p.vendor_id c ∧
      (findFirst (fun i => i.product_id = pid) c.items).isSome) db.carts = none := by
    rw [findFirst_eq_none_iff]
    intro c hc hcc
    exact (findFirst_eq_none_iff _ _).mp hnc c hc hcc.1
  have h2 : add_to_cart { db with carts := db.carts ++ [nc] } uid ⟨pid, b⟩ =
      .ok ({ db with carts := db.carts ++ [nc2] }, a + b) := by
    unfold add_to_cart
    rw [show findProduct { db with carts := db.carts ++ [nc] } pid = some p from hp]
    dsimp only
    rw [show findCart { db with carts := db.carts ++ [nc] } uid p.vendor_id = some nc
      from hfc1]
    dsimp only
    have hcond : (findFirst (fun i => i.product_id = pid) nc.items).isSome = true := by
      simp [hnc_def, findFirst]
    rw [if_pos hcond]
    rw [updateFirst_append_of_none _ _ _ hbig]
    have hup : updateFirst (fun c => cartKey uid p.vendor_id c ∧
        (findFirst (fun i => i.product_id = pid) c.items).isSome)
        (fun c => { c with items :=
          (updateFirst (fun i => i.product_id = pid)
            (fun i => { i with quantity := i.quantity + b }) c.items) }) [nc] = [nc2] := by
      simp [updateFirst, findFirst, cartKey, hnc_def, hnc2_def]
    rw [hup]
    rw [show findCart { db with carts := db.carts ++ [nc2] } uid p.vendor_id = some nc2
      from hfc3]
    simp [hnc2_def]
  exact ⟨_, _, h1, h2, hfc3⟩

/-- Witness for C9: user `u2` adds product A with quantity 2, then again
with quantity 3, ending with a single line item of quantity 5. -/
theorem C9_add_same_product_twice_witness :
    add_to_cart db0 "u2" ⟨"pA", 2⟩ = .ok (dbAdd1, 2) ∧
    add_to_cart dbAdd1 "u2" ⟨"pA", 3⟩ = .ok (dbAdd2, 5) ∧
    findCart dbAdd2 "u2" "v1" = some ⟨"u2", "v1", [⟨"pA", 5⟩]⟩ := by
  obtain ⟨db1, db2, h1, h2, h3⟩ := C9_add_same_product_twice db0 "u2" "pA" 2 3 prodA rfl rfl
  have e1 : dbAdd1 = db1 := by unfold dbAdd1; rw [h1]; rfl
  subst e1
  have e2 : dbAdd2 = db2 := by unfold dbAdd2; rw [h2]; rfl
  subst e2
  exact ⟨h1, h2, h3⟩

/-- **C10.** Evaluation at the claim's scenario.  For the valid status
`preparing` and order ids that match nothing, the *default* call — no
agent location supplied — does **not** return the success message: the
malformed `{"$set": {"$set": ...}}` update document of server.py:956 is
rejected by the store before matching, so the endpoint fails with a
server error (raised before any write, leaving every stored order
unchanged).  A call that does supply an agent location behaves as the
claim describes: the success message, no `NotFound`, database
untouched. -/
theorem C10_update_absent_order :
    getOrder db0 "nope" = none ∧ "preparing" ∈ valid_statuses ∧
    update_order_status db0 "nope" "preparing" none 3 =
      .error "Malformed update document" ∧
    runUpdate db0 "nope" "preparing" none 3 = db0 ∧
    getOrder dbDel "nope" = none ∧
    update_order_status dbDel "nope" "preparing" none 3 =
      .error "Malformed update document" ∧
    runUpdate dbDel "nope" "preparing" none 3 = dbDel ∧
    update_order_status db0 "nope" "preparing" (some locD) 3 =
      .ok (db0, "Order status updated to preparing") := by
  refine ⟨rfl, by decide, rfl, runUpdate_none db0 "nope" "preparing" 3, rfl, rfl,
    runUpdate_none dbDel "nope" "preparing" 3, rfl⟩
